import Mathlib

/-!
Verification development for the contract-intelligence backend.

Shallow embedding of the core components:
* `calculate_score` / `identify_gaps` — `src/backend/src/core/utils.py`
* `extract_confidence_score` — `src/backend/src/core/utils.py`
* `_extract_currency`, `_extract_parties`, `_extract_line_items` —
  `src/backend/src/services/extractor.py`
* `parse_contract` and its Celery-driven retry loop —
  `src/backend/src/tasks/celery.py`

The Python regex engine and the PDF library are external collaborators: where
a function consumes the output of `re.findall` (a list of captured strings)
the embedding takes that list as a parameter, and where a regex is a plain
alternation of literal tokens (the currency checks) it is embedded directly as
case-insensitive substring containment.  Python dict truthiness (`if d.get(k)`)
is modelled with `Option`/`Bool`/`List` fields: `none`, `false`, `[]`, `0`
stand for an absent *or falsy* value, exactly as the code's truthiness tests
collapse the two.
-/

/-! ## Data model for extracted contract data

Mirrors the dictionary shapes consumed by `calculate_score` and
`identify_gaps` in `src/backend/src/core/utils.py`.  Leaf fields that the code
only ever tests for truthiness are `Bool`; `line_items` only matters through
`len(...) > 0`, so it is carried as a count. -/

structure FinancialDetails where
  total_value : Bool
  line_items : Nat
  currency : Bool
  tax_information : Bool
deriving DecidableEq

structure ScoreParty where
  legal_entity : Bool
  authorized_signatory : Bool
deriving DecidableEq

structure PaymentStructure where
  terms : Bool
  schedule : Bool
  method : Bool
deriving DecidableEq

structure SlaTerms where
  response_time : Bool
  uptime_guarantee : Bool
  penalties : Bool
deriving DecidableEq

structure ContactInformation where
  billing_contact : Bool
  technical_contact : Bool
deriving DecidableEq

structure ExtractedData where
  financial_details : Option FinancialDetails
  parties : List ScoreParty
  payment_structure : Option PaymentStructure
  sla_terms : Option SlaTerms
  contact_information : Option ContactInformation
deriving DecidableEq

/-- The empty extracted-data record, modelling the Python dict `{}`:
every `.get` returns a falsy value. -/
def emptyData : ExtractedData :=
  { financial_details := none, parties := [], payment_structure := none,
    sla_terms := none, contact_information := none }

/-! ## Scoring weights — `src/backend/src/core/config.py`, `SCORING_WEIGHTS` -/

structure ScoringWeights where
  financial_completeness : Nat
  party_identification : Nat
  payment_terms_clarity : Nat
  sla_definition : Nat
  contact_information : Nat

def SCORING_WEIGHTS : ScoringWeights :=
  { financial_completeness := 30, party_identification := 25,
    payment_terms_clarity := 20, sla_definition := 15,
    contact_information := 10 }

/-! ## `calculate_score` — `src/backend/src/core/utils.py` lines 9-88

Each category block of the Python function becomes one contribution
function; `calculate_score` adds them in source order and applies the final
`min(score, 100)`. -/

/-- Raw financial sub-score before the category cap (utils.py lines 24-33). -/
def financialRaw (f : FinancialDetails) : Nat :=
  (if f.total_value then 10 else 0) +
  (if 0 < f.line_items then 10 else 0) +
  (if f.currency then 5 else 0) +
  (if f.tax_information then 5 else 0)

/-- Financial completeness category (utils.py lines 22-35): skipped when the
`financial_details` dict is absent or empty, else capped at its weight. -/
def financialContribution (fd : Option FinancialDetails) : Nat :=
  match fd with
  | none => 0
  | some f => min (financialRaw f) SCORING_WEIGHTS.financial_completeness

/-- Party identification category (utils.py lines 37-46): nothing is added
unless the party list is truthy and has at least two entries. -/
def partyContribution (parties : List ScoreParty) : Nat :=
  if parties.isEmpty then 0
  else if 2 ≤ parties.length then
    min (15 + (if parties.any ScoreParty.legal_entity then 5 else 0) +
          (if parties.any ScoreParty.authorized_signatory then 5 else 0))
      SCORING_WEIGHTS.party_identification
  else 0

/-- Payment terms clarity category (utils.py lines 48-60). -/
def paymentContribution (ps : Option PaymentStructure) : Nat :=
  match ps with
  | none => 0
  | some p =>
    min ((if p.terms then 8 else 0) + (if p.schedule then 6 else 0) +
          (if p.method then 6 else 0))
      SCORING_WEIGHTS.payment_terms_clarity

/-- SLA definition category (utils.py lines 62-74). -/
def slaContribution (st : Option SlaTerms) : Nat :=
  match st with
  | none => 0
  | some s =>
    min ((if s.response_time then 5 else 0) +
          (if s.uptime_guarantee then 5 else 0) +
          (if s.penalties then 5 else 0))
      SCORING_WEIGHTS.sla_definition

/-- Contact information category (utils.py lines 76-86). -/
def contactContribution (ci : Option ContactInformation) : Nat :=
  match ci with
  | none => 0
  | some c =>
    min ((if c.billing_contact then 5 else 0) +
          (if c.technical_contact then 5 else 0))
      SCORING_WEIGHTS.contact_information

/-- `calculate_score` (utils.py lines 9-88): category contributions are
accumulated in source order and the grand total is capped at 100. -/
def calculate_score (d : ExtractedData) : Nat :=
  min (financialContribution d.financial_details +
        partyContribution d.parties +
        paymentContribution d.payment_structure +
        slaContribution d.sla_terms +
        contactContribution d.contact_information)
    100

/-! ## `identify_gaps` — `src/backend/src/core/utils.py` lines 91-174 -/

structure Gap where
  field : String
  importance : String
  status : String
  description : String
deriving DecidableEq

/-- `identify_gaps` (utils.py lines 91-174), rule blocks in source order. -/
def identify_gaps (d : ExtractedData) : List Gap :=
  (match d.financial_details with
    | none =>
      [{ field := "Financial Details", importance := "High",
         status := "Missing", description := "No financial information found" }]
    | some f =>
      (if f.total_value then [] else
        [{ field := "Contract Value", importance := "High",
           status := "Missing",
           description := "Total contract value not specified" }]) ++
      (if f.currency then [] else
        [{ field := "Currency", importance := "Medium", status := "Missing",
           description := "Currency not specified" }])) ++
  (if d.parties.length < 2 then
    [{ field := "Contract Parties", importance := "High",
       status := "Incomplete",
       description := "Less than 2 parties identified" }]
   else []) ++
  (match d.payment_structure with
    | none =>
      [{ field := "Payment Terms", importance := "High", status := "Missing",
         description := "Payment terms not found" }]
    | some p =>
      if p.terms then [] else
        [{ field := "Payment Schedule", importance := "High",
           status := "Missing",
           description := "Payment schedule not specified" }]) ++
  (match d.sla_terms with
    | none =>
      [{ field := "Service Level Agreements", importance := "Medium",
         status := "Missing", description := "SLA terms not found" }]
    | some _ => []) ++
  (match d.contact_information with
    | none =>
      [{ field := "Contact Information", importance := "Medium",
         status := "Missing", description := "Contact details not found" }]
    | some _ => [])

/-! ## `extract_confidence_score` — `src/backend/src/core/utils.py` lines 224-258

`re.findall(pattern, text, IGNORECASE | MULTILINE)` is external; its result is
the `matches` parameter.  The single-match context probe (±50-character window
containing the field name, lines 248-252) is a further regex search, carried as
the boolean `fieldInContext`.  The returned Python dict has the key
`matches_count` only in the non-empty branch, so that key is an `Option`. -/

inductive MatchValue where
  | single : String → MatchValue
  | several : List String → MatchValue
deriving DecidableEq

structure ScoreResult where
  value : Option MatchValue
  confidence : Nat
  matches_count : Option Nat
deriving DecidableEq

def extract_confidence_score (found : List String)
    (fieldInContext : Bool) : ScoreResult :=
  if found.isEmpty then
    { value := none, confidence := 0, matches_count := none }
  else
    let confidence := min (85 + found.length * 5) 95
    let confidence :=
      if found.length = 1 ∧ fieldInContext then confidence + 10
      else confidence
    { value := some (match found with
        | [m] => MatchValue.single m
        | ms => MatchValue.several ms),
      confidence := min confidence 95,
      matches_count := some found.length }

/-! ## Case-insensitive containment and `_extract_currency` —
`src/backend/src/services/extractor.py` lines 322-340

The three currency regexes are alternations of literal tokens searched with
`re.IGNORECASE`, i.e. case-insensitive substring presence. -/

/-- Is `needle` a contiguous sublist of the second argument? -/
def isSub (needle : List Char) : List Char → Bool
  | [] => needle.isEmpty
  | c :: rest => needle.isPrefixOf (c :: rest) || isSub needle rest

/-- Case-insensitive substring test, modelling `re.search(token, text,
re.IGNORECASE)` for a literal token. -/
def containsCI (text token : String) : Bool :=
  isSub (token.data.map Char.toLower) (text.data.map Char.toLower)

/-- Presence check for the first branch regex `\$|USD|US Dollar`. -/
def usdPresent (text : String) : Bool :=
  containsCI text "$" || containsCI text "USD" || containsCI text "US Dollar"

/-- Presence check for the second branch regex `€|EUR|Euro`. -/
def eurPresent (text : String) : Bool :=
  containsCI text "€" || containsCI text "EUR" || containsCI text "Euro"

/-- Presence check for the third branch regex `£|GBP|British Pound`. -/
def gbpPresent (text : String) : Bool :=
  containsCI text "£" || containsCI text "GBP" || containsCI text "British Pound"

/-- `_extract_currency` (extractor.py lines 322-340): fixed-priority
presence checks, USD first, then EUR, then GBP. -/
def extract_currency (text : String) : Option String :=
  if usdPresent text then some "USD"
  else if eurPresent text then some "EUR"
  else if gbpPresent text then some "GBP"
  else none

/-! ## `_extract_parties` — `src/backend/src/services/extractor.py` lines 174-211

`re.findall` over each of the three `party_patterns` is external: the
`patternGroups` parameter holds, per pattern, the ordered list of captured
strings.  `_determine_party_role`, `_extract_legal_entity_details` and the
confidence lookup are further regex probes over the fixed contract text, so
for a fixed text they are functions of the (trimmed) party name, carried as
the parameters `role`, `legal` and `conf`. -/

structure PartyRec where
  name : String
  role : String
  legal_entity : Option String
  confidence : Nat
deriving DecidableEq

/-- Python `str.strip()`: drop leading and trailing whitespace. -/
def pyStrip (s : String) : String :=
  ⟨((s.data.dropWhile Char.isWhitespace).reverse.dropWhile
      Char.isWhitespace).reverse⟩

/-- Loop body of `_extract_parties` (extractor.py lines 191-209): a match is
appended only when its stripped name is longer than 3 characters and not
already collected. -/
def addMatch (role : String → String) (legal : String → Option String)
    (conf : String → Nat) (acc : List PartyRec) (m : String) : List PartyRec :=
  if 3 < (pyStrip m).length ∧ pyStrip m ∉ acc.map PartyRec.name then
    acc ++ [{ name := pyStrip m, role := role (pyStrip m),
              legal_entity := legal (pyStrip m),
              confidence := conf (pyStrip m) }]
  else acc

/-- Full collection phase of `_extract_parties`: both nested loops, before the
final truncation. -/
def collect_parties (patternGroups : List (List String))
    (role : String → String) (legal : String → Option String)
    (conf : String → Nat) : List PartyRec :=
  patternGroups.foldl (fun acc ms => ms.foldl (addMatch role legal conf) acc) []

/-- `_extract_parties` (extractor.py lines 174-211): collect across all
patterns, then `return parties[:4]`. -/
def extract_parties (patternGroups : List (List String))
    (role : String → String) (legal : String → Option String)
    (conf : String → Nat) : List PartyRec :=
  (collect_parties patternGroups role legal conf).take 4

/-! ## `_extract_line_items` — `src/backend/src/services/extractor.py`
lines 342-368

`re.findall` on `line_pattern` returns 4-tuples of captured strings; the
quantity group is `\d+`, so it is carried as a `Nat` (Python applies `int`). -/

structure LineMatch where
  desc : String
  qty : Nat
  unit_price : String
  total : String
deriving DecidableEq

structure LineItem where
  description : String
  quantity : Nat
  unit_price : String
  total : String
deriving DecidableEq

/-- Collection loop of `_extract_line_items` (extractor.py lines 360-366),
before the final truncation. -/
def collect_line_items (found : List LineMatch) : List LineItem :=
  found.map fun m =>
    { description := pyStrip m.desc, quantity := m.qty,
      unit_price := "$" ++ m.unit_price, total := "$" ++ m.total }

/-- `_extract_line_items` (extractor.py lines 342-368): collect all matches,
then `return line_items[:10]`. -/
def extract_line_items (found : List LineMatch) : List LineItem :=
  (collect_line_items found).take 10

/-! ## `parse_contract` and the Celery retry loop —
`src/backend/src/tasks/celery.py` lines 27-187

One invocation of the task body is `parse_contract`.  The external
collaborators appearing in it are collapsed into an `Env`:
* `docExists` — whether `contracts.find_one` returns a record (celery.py
  lines 66-68);
* `extraction` — the outcome of `extractor.extract_data` (line 92): either
  the extracted record or the raised exception's message;
* `scoringFails` — whether the `calculate_score` / `identify_gaps` block
  (lines 106-116) raises.
The Mongo collection is modelled as a `Doc` plus the ordered list of
`update_one` `$set` payloads (`UpdateSet`, partial-field upserts).  The
`updated_at` / `processing_completed_at` timestamps and the
`confidence_scores` field of the completion write are not referenced by any
claim and are omitted from `UpdateSet`.  The retry configuration (celery.py
lines 40-42) gives `task_default_retry_delay = 60` and `task_max_retries = 3`;
`run_parse_contract` models the Celery runtime re-invoking the whole task
body on `self.retry` with the retry counter incremented. -/

inductive Status where
  | pending
  | processing
  | completed
  | failed
deriving DecidableEq

structure Doc where
  status : Status
  progress : Nat
  error : Option String
  score : Nat
  gaps : List Gap
  extracted_data : Option ExtractedData
deriving DecidableEq

/-- One `update_one` `$set` payload: absent fields are left unchanged. -/
structure UpdateSet where
  status : Option Status := none
  progress : Option Nat := none
  error : Option String := none
  score : Option Nat := none
  gaps : Option (List Gap) := none
  extracted_data : Option ExtractedData := none
deriving DecidableEq

def applyUpdate (d : Doc) (u : UpdateSet) : Doc :=
  { status := u.status.getD d.status,
    progress := u.progress.getD d.progress,
    error := match u.error with | some e => some e | none => d.error,
    score := u.score.getD d.score,
    gaps := u.gaps.getD d.gaps,
    extracted_data := match u.extracted_data with
      | some x => some x
      | none => d.extracted_data }

structure Env where
  docExists : Bool
  extraction : Except String ExtractedData
  scoringFails : Bool

def task_default_retry_delay : Nat := 60

def task_max_retries : Nat := 3

/-- Error message of the `ProcessingError` raised at celery.py line 68. -/
def notFoundMsg (contract_id : String) : String :=
  "Contract " ++ contract_id ++ " not found in database"

/-- The `$set` of celery.py lines 71-80 (status processing, progress 10). -/
def processingWrite : UpdateSet :=
  { status := some Status.processing, progress := some 10 }

/-- The progress-only `$set`s of celery.py lines 87-90, 96-99, 113-116. -/
def progressWrite (n : Nat) : UpdateSet := { progress := some n }

/-- The failure `$set` of celery.py lines 158-168. -/
def failWrite (msg : String) : UpdateSet :=
  { status := some Status.failed, progress := some 0, error := some msg }

/-- The retry-exhaustion `$set` of celery.py lines 176-185; note it carries
no `progress` field. -/
def maxRetriesWrite (msg : String) : UpdateSet :=
  { status := some Status.failed,
    error := some ("Max retries exceeded: " ++ msg) }

/-- The completion `$set` of celery.py lines 127-141. -/
def completedWrite (data : ExtractedData) (score : Nat) (gaps : List Gap) :
    UpdateSet :=
  { status := some Status.completed, progress := some 100,
    extracted_data := some data, score := some score, gaps := some gaps }

inductive Outcome where
  | completed
  | retry (countdown : Nat)
  | permFailed
deriving DecidableEq

/-- The generic `except Exception` handler of celery.py lines 153-187:
write the failure state; if retries remain, `self.retry(countdown=...)`,
else write the permanent failure and re-raise. -/
def failureFlow (msg : String) (retries maxRetries : Nat) :
    List UpdateSet × Outcome :=
  if retries < maxRetries then
    ([failWrite msg], Outcome.retry task_default_retry_delay)
  else
    ([failWrite msg, maxRetriesWrite msg], Outcome.permFailed)

/-- One invocation of the task body `parse_contract` (celery.py lines
49-187), returning the ordered `$set` payloads it issues and how it ends. -/
def parse_contract (env : Env) (contract_id : String)
    (retries maxRetries : Nat) : List UpdateSet × Outcome :=
  if env.docExists then
    match env.extraction with
    | Except.error e =>
      let (ws, o) := failureFlow e retries maxRetries
      ([processingWrite, progressWrite 30] ++ ws, o)
    | Except.ok data =>
      let scoreGaps :=
        if env.scoringFails then ((0, []), ([] : List UpdateSet))
        else ((calculate_score data, identify_gaps data), [progressWrite 80])
      ([processingWrite, progressWrite 30, progressWrite 60] ++
        scoreGaps.2 ++
        [completedWrite data scoreGaps.1.1 scoreGaps.1.2],
       Outcome.completed)
  else
    failureFlow (notFoundMsg contract_id) retries maxRetries

structure RunResult where
  doc : Doc
  attempts : Nat
  waits : List (Nat × Doc)
  writes : List UpdateSet
  outcome : Outcome
deriving DecidableEq

/-- Celery-driven execution: run the task body; on `retry` wait for the
countdown and re-invoke the whole body with the retry counter incremented.
`gas` bounds the recursion; `run_parse_contract` supplies enough for all
`maxRetries` re-invocations. -/
def runFrom (env : Env) (contract_id : String) (maxRetries : Nat) :
    Nat → Nat → Doc → RunResult
  | 0, _, d =>
    { doc := d, attempts := 0, waits := [], writes := [],
      outcome := Outcome.permFailed }
  | gas + 1, retries, d =>
    let step := parse_contract env contract_id retries maxRetries
    let d2 := step.1.foldl applyUpdate d
    match step.2 with
    | Outcome.retry c =>
      let r := runFrom env contract_id maxRetries gas (retries + 1) d2
      { doc := r.doc, attempts := r.attempts + 1,
        waits := (c, d2) :: r.waits, writes := step.1 ++ r.writes,
        outcome := r.outcome }
    | o =>
      { doc := d2, attempts := 1, waits := [], writes := step.1,
        outcome := o }

/-- A full processing run of one enqueued contract, starting from a fresh
invocation (retry counter 0) with the configured maximum of 3 retries. -/
def run_parse_contract (env : Env) (contract_id : String) (d : Doc) :
    RunResult :=
  runFrom env contract_id task_max_retries (task_max_retries + 1) 0 d

/-- A freshly uploaded document record (status pending, progress 0). -/
def initDoc : Doc :=
  { status := Status.pending, progress := 0, error := none, score := 0,
    gaps := [], extracted_data := none }

/-! ## Helper lemmas about the party-collection loop -/

/-- Membership in one loop step: an element either was already collected or
is the freshly appended party, whose stripped name passed the length guard. -/
theorem mem_addMatch {role : String → String} {legal : String → Option String}
    {conf : String → Nat} {acc : List PartyRec} {m : String} {p : PartyRec}
    (hp : p ∈ addMatch role legal conf acc m) :
    p ∈ acc ∨ (p.name = pyStrip m ∧ 3 < (pyStrip m).length) := by
  unfold addMatch at hp
  split at hp
  · rename_i hc
    rcases List.mem_append.mp hp with h | h
    · exact Or.inl h
    · right
      rw [List.mem_singleton.mp h]
      exact ⟨rfl, hc.1⟩
  · exact Or.inl hp

/-- One loop step preserves the minimum-length invariant. -/
theorem addMatch_keeps_len {role : String → String}
    {legal : String → Option String} {conf : String → Nat}
    {acc : List PartyRec} {m : String}
    (h : ∀ q ∈ acc, 3 < q.name.length) :
    ∀ q ∈ addMatch role legal conf acc m, 3 < q.name.length := by
  intro q hq
  rcases mem_addMatch hq with h1 | ⟨hn, hl⟩
  · exact h q h1
  · rw [hn]
    exact hl

/-- The inner loop over one pattern's matches preserves the minimum-length
invariant. -/
theorem foldl_addMatch_len {role : String → String}
    {legal : String → Option String} {conf : String → Nat} :
    ∀ (ms : List String) (acc : List PartyRec),
      (∀ q ∈ acc, 3 < q.name.length) →
      ∀ q ∈ ms.foldl (addMatch role legal conf) acc, 3 < q.name.length := by
  intro ms
  induction ms with
  | nil => intro acc h; simpa using h
  | cons m ms ih => intro acc h; exact ih _ (addMatch_keeps_len h)

/-- The outer loop over all patterns preserves the minimum-length invariant. -/
theorem collect_parties_len {role : String → String}
    {legal : String → Option String} {conf : String → Nat} :
    ∀ (pgs : List (List String)) (acc : List PartyRec),
      (∀ q ∈ acc, 3 < q.name.length) →
      ∀ q ∈ pgs.foldl (fun acc2 ms => ms.foldl (addMatch role legal conf) acc2)
          acc, 3 < q.name.length := by
  intro pgs
  induction pgs with
  | nil => intro acc h; simpa using h
  | cons ms pgs ih => intro acc h; exact ih _ (foldl_addMatch_len ms acc h)

/-- One loop step preserves distinctness of collected names. -/
theorem addMatch_nodup {role : String → String}
    {legal : String → Option String} {conf : String → Nat}
    {acc : List PartyRec} {m : String}
    (h : (acc.map PartyRec.name).Nodup) :
    ((addMatch role legal conf acc m).map PartyRec.name).Nodup := by
  unfold addMatch
  split
  · rename_i hc
    rw [List.map_append]
    refine List.Nodup.append h (List.nodup_singleton _) ?_
    simp only [List.map_cons, List.map_nil, List.disjoint_singleton]
    exact hc.2
  · exact h

/-- The inner loop preserves distinctness of collected names. -/
theorem foldl_addMatch_nodup {role : String → String}
    {legal : String → Option String} {conf : String → Nat} :
    ∀ (ms : List String) (acc : List PartyRec),
      (acc.map PartyRec.name).Nodup →
      ((ms.foldl (addMatch role legal conf) acc).map PartyRec.name).Nodup := by
  intro ms
  induction ms with
  | nil => intro acc h; simpa using h
  | cons m ms ih => intro acc h; exact ih _ (addMatch_nodup h)

/-- The outer loop preserves distinctness of collected names. -/
theorem collect_parties_nodup {role : String → String}
    {legal : String → Option String} {conf : String → Nat} :
    ∀ (pgs : List (List String)) (acc : List PartyRec),
      (acc.map PartyRec.name).Nodup →
      ((pgs.foldl (fun acc2 ms => ms.foldl (addMatch role legal conf) acc2)
          acc).map PartyRec.name).Nodup := by
  intro pgs
  induction pgs with
  | nil => intro acc h; simpa using h
  | cons ms pgs ih => intro acc h; exact ih _ (foldl_addMatch_nodup ms acc h)

/-! ## Claim theorems -/

/-- Claim C1, counterexample.  The claim says a missing document record at
start yields a terminal failure after exactly one attempt with the retry path
never entered.  On the code, the `ProcessingError` of celery.py line 68 is
caught by the same generic handler as every other error: at the concrete
input (document absent, contract id `"c1"`, fresh document) the run takes
more than one attempt and the wait-and-retry path is entered. -/
theorem missing_document_retried_counterexample :
    (run_parse_contract ⟨false, Except.error "x", false⟩ "c1"
      initDoc).attempts ≠ 1 ∧
    (run_parse_contract ⟨false, Except.error "x", false⟩ "c1"
      initDoc).waits ≠ [] := by
  constructor
  · decide
  · decide

/-- Claim C1, amended.  When the store lookup returns nothing, the raised
`ProcessingError` follows the generic retry path like any other failure: the
document is written Failed (progress 0, error `Contract <id> not found in
database`), the task waits 60 and re-runs, three times, and the run ends
after 4 attempts permanently Failed with the error prefixed by
`Max retries exceeded: `.  The writes contain only failure writes — the
missing record is re-checked and still missing on every attempt. -/
theorem missing_document_retry_exhaustion
    (ex : Except String ExtractedData) (sb : Bool) (cid : String) (d0 : Doc) :
    (run_parse_contract ⟨false, ex, sb⟩ cid d0).attempts = 4 ∧
    (run_parse_contract ⟨false, ex, sb⟩ cid d0).waits.map Prod.fst =
      [60, 60, 60] ∧
    (run_parse_contract ⟨false, ex, sb⟩ cid d0).doc.status = Status.failed ∧
    (run_parse_contract ⟨false, ex, sb⟩ cid d0).doc.error =
      some ("Max retries exceeded: " ++ notFoundMsg cid) ∧
    (run_parse_contract ⟨false, ex, sb⟩ cid d0).writes =
      [failWrite (notFoundMsg cid), failWrite (notFoundMsg cid),
       failWrite (notFoundMsg cid), failWrite (notFoundMsg cid),
       maxRetriesWrite (notFoundMsg cid)] :=
  ⟨rfl, rfl, rfl, rfl, rfl⟩

/-- Claim C2, counterexample.  The claim says the zero-match result carries
`matchCount = 0`; on the code the returned dict of utils.py line 239 has no
`matches_count` key at all (the key appears only in the non-empty branch,
line 257). -/
theorem zero_matches_no_count_key_counterexample :
    (extract_confidence_score [] false).matches_count ≠ some 0 := by
  decide

/-- Claim C2, amended.  With zero matches, `extract_confidence_score`
returns exactly `value = none` and `confidence = 0`, with the
`matches_count` key absent. -/
theorem zero_matches_result (b : Bool) :
    extract_confidence_score [] b =
      { value := none, confidence := 0, matches_count := none } := rfl

/-- Claim C3: on a retry-eligible fatal failure (extraction error with any
message), each of the first three attempts writes the document Failed with
the error message (progress reset to 0) and schedules a 60-unit wait, the
whole pipeline re-runs from the top (each attempt re-issues the processing
and progress-30 writes), and after the 3 retries are exhausted the document
is permanently Failed with error `Max retries exceeded: <original error>`. -/
theorem extraction_failure_retry_policy (msg : String) (sb : Bool)
    (cid : String) (d0 : Doc) :
    (run_parse_contract ⟨true, Except.error msg, sb⟩ cid d0).attempts = 4 ∧
    (run_parse_contract ⟨true, Except.error msg, sb⟩ cid d0).waits =
      [(60, { d0 with
              status := Status.failed
              progress := 0
              error := some msg }),
       (60, { d0 with
              status := Status.failed
              progress := 0
              error := some msg }),
       (60, { d0 with
              status := Status.failed
              progress := 0
              error := some msg })] ∧
    (run_parse_contract ⟨true, Except.error msg, sb⟩ cid d0).doc =
      { d0 with
        status := Status.failed
        progress := 0
        error := some ("Max retries exceeded: " ++ msg) } ∧
    (run_parse_contract ⟨true, Except.error msg, sb⟩ cid d0).writes =
      [processingWrite, progressWrite 30, failWrite msg,
       processingWrite, progressWrite 30, failWrite msg,
       processingWrite, progressWrite 30, failWrite msg,
       processingWrite, progressWrite 30, failWrite msg,
       maxRetriesWrite msg] :=
  ⟨rfl, rfl, rfl, rfl⟩

/-- Claim C4: when extraction succeeds and the scoring/gap step fails, the
run recovers locally — the document reaches the terminal Completed state with
progress 100, persisted score 0 and persisted gaps empty, in a single attempt
(the task body ends Completed no matter the retry counter). -/
theorem scoring_failure_recovered (data : ExtractedData) (cid : String)
    (d0 : Doc) (r : Nat) :
    (run_parse_contract ⟨true, Except.ok data, true⟩ cid d0).doc.status =
      Status.completed ∧
    (run_parse_contract ⟨true, Except.ok data, true⟩ cid d0).doc.progress =
      100 ∧
    (run_parse_contract ⟨true, Except.ok data, true⟩ cid d0).doc.score = 0 ∧
    (run_parse_contract ⟨true, Except.ok data, true⟩ cid d0).doc.gaps = [] ∧
    (run_parse_contract ⟨true, Except.ok data, true⟩ cid d0).attempts = 1 ∧
    (parse_contract ⟨true, Except.ok data, true⟩ cid r 3).2 =
      Outcome.completed :=
  ⟨rfl, rfl, rfl, rfl, rfl, rfl⟩

/-- Claim C5: for every extracted-data input the completeness score lies in
[0, 100] (it is a `Nat`, so 0 is a lower bound by type); the empty record
scores exactly 0; each of the five category contributions is capped at its
weight (30, 25, 20, 15, 10) and the grand total is the capped category sum
capped at 100. -/
theorem calculate_score_bounds :
    (∀ d, calculate_score d ≤ 100) ∧
    calculate_score emptyData = 0 ∧
    (∀ fd, financialContribution fd ≤ 30) ∧
    (∀ ps, partyContribution ps ≤ 25) ∧
    (∀ p, paymentContribution p ≤ 20) ∧
    (∀ s, slaContribution s ≤ 15) ∧
    (∀ c, contactContribution c ≤ 10) ∧
    (∀ d, calculate_score d =
      min (financialContribution d.financial_details +
            partyContribution d.parties +
            paymentContribution d.payment_structure +
            slaContribution d.sla_terms +
            contactContribution d.contact_information) 100) := by
  refine ⟨fun d => Nat.min_le_right _ _, rfl, ?_, ?_, ?_, ?_, ?_, fun d => rfl⟩
  · intro fd
    cases fd with
    | none => decide
    | some f => exact Nat.min_le_right _ _
  · intro ps
    unfold partyContribution
    split
    · decide
    · split
      · exact Nat.min_le_right _ _
      · decide
  · intro p
    cases p with
    | none => decide
    | some q => exact Nat.min_le_right _ _
  · intro s
    cases s with
    | none => decide
    | some q => exact Nat.min_le_right _ _
  · intro c
    cases c with
    | none => decide
    | some q => exact Nat.min_le_right _ _

/-- Claim C6: the party-identification category contributes exactly 0 when
fewer than 2 parties are present (whatever their legal-entity or signatory
flags), and with 2 or more parties contributes 15 plus 5 for any legal
entity plus 5 for any authorized signatory, capped at 25. -/
theorem party_identification_contribution (ps : List ScoreParty) :
    (ps.length < 2 → partyContribution ps = 0) ∧
    (2 ≤ ps.length → partyContribution ps =
      min (15 + (if ps.any ScoreParty.legal_entity then 5 else 0) +
            (if ps.any ScoreParty.authorized_signatory then 5 else 0)) 25) := by
  constructor
  · intro h
    rcases ps with _ | ⟨p, _ | ⟨q, rest⟩⟩
    · rfl
    · rfl
    · simp only [List.length_cons] at h
      omega
  · intro h
    rcases ps with _ | ⟨p, _ | ⟨q, rest⟩⟩
    · simp at h
    · simp [List.length_cons] at h
    · unfold partyContribution
      rw [if_neg (by simp : ¬((p :: q :: rest).isEmpty = true))]
      rw [if_pos (show 2 ≤ (p :: q :: rest).length by
        simp only [List.length_cons]
        omega)]
      rfl

/-- Witness for C6: one party with a legal entity still contributes 0; two
parties, one with a legal entity and one with a signatory, contribute 25. -/
theorem party_identification_contribution_witness :
    partyContribution [⟨true, true⟩] = 0 ∧
    partyContribution [⟨true, false⟩, ⟨false, true⟩] = 25 := by
  refine ⟨(party_identification_contribution [⟨true, true⟩]).1 (by decide), ?_⟩
  have h := (party_identification_contribution
    [⟨true, false⟩, ⟨false, true⟩]).2 (by decide)
  rw [h]
  decide

/-- Claim C7: currency resolution is a fixed-priority presence check — any
text containing a `$` (in particular one with a `$` amount) resolves to USD
even when the literal token `EUR` is also present, and a text matching none
of the three currency checks yields no currency. -/
theorem currency_fixed_priority (text : String) :
    (containsCI text "$" = true → containsCI text "EUR" = true →
      extract_currency text = some "USD") ∧
    (usdPresent text = false → eurPresent text = false →
      gbpPresent text = false → extract_currency text = none) := by
  constructor
  · intro h1 _
    have hu : usdPresent text = true := by
      unfold usdPresent
      rw [h1]
      rfl
    simp [extract_currency, hu]
  · intro h1 h2 h3
    simp [extract_currency, h1, h2, h3]

/-- Witness for C7: a text with both a `$` amount and the token `EUR`
resolves to USD; a text with no currency marker resolves to none. -/
theorem currency_fixed_priority_witness :
    extract_currency "Fee: $100, settled in EUR" = some "USD" ∧
    extract_currency "no money here" = none :=
  ⟨(currency_fixed_priority "Fee: $100, settled in EUR").1 (by decide)
      (by decide),
   (currency_fixed_priority "no money here").2 (by decide) (by decide)
      (by decide)⟩

/-- Claim C8: for every input, party extraction returns at most 4 entries
and line-item extraction at most 10; both equal the full collection phase
truncated afterwards (`[:4]` / `[:10]` applied to the completely collected
list, not during collection); and the collected parties — before truncation —
carry pairwise-distinct stripped names. -/
theorem extraction_caps_and_dedup (pgs : List (List String))
    (role : String → String) (legal : String → Option String)
    (conf : String → Nat) (lm : List LineMatch) :
    (extract_parties pgs role legal conf).length ≤ 4 ∧
    (extract_line_items lm).length ≤ 10 ∧
    extract_parties pgs role legal conf =
      (collect_parties pgs role legal conf).take 4 ∧
    extract_line_items lm = (collect_line_items lm).take 10 ∧
    ((collect_parties pgs role legal conf).map PartyRec.name).Nodup := by
  refine ⟨?_, ?_, rfl, rfl, ?_⟩
  · rw [extract_parties, List.length_take]
    exact Nat.min_le_left _ _
  · rw [extract_line_items, List.length_take]
    exact Nat.min_le_left _ _
  · exact collect_parties_nodup pgs [] (by simp)

/-- Claim C9: every party in the returned list has a (stripped) name longer
than 3 characters — matches whose stripped name is 3 characters or shorter
are silently discarded, as the second conjunct shows on a concrete match
(`" ab "` strips to `"ab"` and is dropped whatever the role/entity/confidence
probes return). -/
theorem party_min_length_filter :
    (∀ (pgs : List (List String)) (role : String → String)
      (legal : String → Option String) (conf : String → Nat),
      ∀ p ∈ extract_parties pgs role legal conf, 3 < p.name.length) ∧
    (∀ (role : String → String) (legal : String → Option String)
      (conf : String → Nat),
      extract_parties [[" ab "]] role legal conf = []) := by
  constructor
  · intro pgs role legal conf p hp
    exact collect_parties_len pgs [] (by simp) p (List.take_subset _ _ hp)
  · intro role legal conf
    rfl

/-- Witness for C9: the party extracted from the match `"Acme Corp"` has
name length above 3. -/
theorem party_min_length_filter_witness : 3 < ("Acme Corp" : String).length :=
  party_min_length_filter.1 [["Acme Corp"]] (fun _ => "Party") (fun _ => none)
    (fun _ => 0)
    { name := "Acme Corp", role := "Party", legal_entity := none,
      confidence := 0 }
    (by decide)

/-- Claim C10, counterexample.  The claim says every write that sets status
Failed also writes progress 0; on the code, the retry-exhaustion write of
celery.py lines 176-185 sets status failed without any progress field, as
the final write of this concrete failing run shows. -/
theorem terminal_write_omits_progress :
    (run_parse_contract ⟨true, Except.error "boom", false⟩ "c"
      initDoc).writes.getLast? = some (maxRetriesWrite "boom") ∧
    (maxRetriesWrite "boom").status = some Status.failed ∧
    (maxRetriesWrite "boom").progress = none :=
  ⟨rfl, rfl, rfl⟩

/-- Claim C10, amended.  The per-attempt failure write always resets
progress to 0 together with status Failed and the error message; the
terminal max-retries write carries no progress field, but it always follows
a progress-0 failure write of the same invocation, so whenever a run ends
with the document Failed its persisted progress is 0 (any checkpoint value
is discarded). -/
theorem failed_document_progress_zero :
    (∀ msg retries mr,
      (failureFlow msg retries mr).1.head? = some (failWrite msg)) ∧
    (∀ env cid d0,
      (run_parse_contract env cid d0).doc.status = Status.failed →
      (run_parse_contract env cid d0).doc.progress = 0) := by
  constructor
  · intro msg retries mr
    unfold failureFlow
    split <;> rfl
  · intro env cid d0 h
    obtain ⟨de, ex, sf⟩ := env
    cases de
    · rfl
    · cases ex with
      | error e => rfl
      | ok data =>
        cases sf
        · exact absurd h (by
            simp [run_parse_contract, runFrom, parse_contract, applyUpdate,
              completedWrite])
        · exact absurd h (by
            simp [run_parse_contract, runFrom, parse_contract, applyUpdate,
              completedWrite])

/-- Witness for C10's amended theorem: a concrete failed run ends with
progress 0. -/
theorem failed_document_progress_zero_witness :
    (run_parse_contract ⟨false, Except.error "", false⟩ "c10w"
      initDoc).doc.progress = 0 :=
  failed_document_progress_zero.2 ⟨false, Except.error "", false⟩ "c10w"
    initDoc rfl
